import Mathlib

/-!
Verification of the pantomime actor/stream runtime draft against its
specification.  Each Rust construct the claims touch is shallowly embedded
as an executable Lean definition; theorems settle the claims.
-/

namespace Pantomime

/-! ## Crossbeam channel model (src/mailbox/channel.rs)

The mailbox is backed by an unbounded MPSC channel.  A channel is a FIFO
queue plus a flag recording whether the receiving half is still alive;
`send` enqueues when the receiver is alive and returns an error (ignored by
the appender) otherwise, `tryRecv` pops the head when present. -/

structure Channel (M : Type) where
  queue : List M
  receiverAlive : Bool
deriving Repr, DecidableEq

namespace Channel

/-- `crossbeam::channel::unbounded()`: a fresh empty channel, both halves alive. -/
def unbounded (M : Type) : Channel M :=
  { queue := [], receiverAlive := true }

/-- `Sender::send`: enqueue at the back; if the receiver was dropped the
message is discarded and an error is returned (modelled by leaving the
channel unchanged). -/
def send (c : Channel M) (m : M) : Channel M :=
  if c.receiverAlive then { c with queue := c.queue ++ [m] } else c

/-- `Receiver::try_recv`: pop the front message if any, also returning the
channel after the pop. -/
def tryRecv (c : Channel M) : Option M × Channel M :=
  match c.queue with
  | [] => (none, c)
  | m :: rest => (some m, { c with queue := rest })

end Channel

/-- `CrossbeamChannelMailboxAppenderLogic::append`: sends and silently
ignores the error when the receiver has been dropped (channel.rs:50-54). -/
def append (c : Channel M) (m : M) : Channel M :=
  Channel.send c m

/-- `CrossbeamChannelMailboxLogic::retrieve`: `self.receiver.try_recv().ok()`
(channel.rs:72-74); state-passing version returning the drained channel. -/
def retrieve (c : Channel M) : Option M × Channel M :=
  Channel.tryRecv c

/-- Append a whole list of messages through one appender, in order. -/
def appendAll (c : Channel M) (ms : List M) : Channel M :=
  ms.foldl append c

/-- Repeatedly `retrieve` until `none`, collecting the messages in the order
they were returned. -/
def drainAll : Channel M → List M
  | { queue := [], receiverAlive := _ } => []
  | { queue := m :: rest, receiverAlive := r } =>
      m :: drainAll { queue := rest, receiverAlive := r }

/-! ## Appender cloning (src/mailbox/channel.rs:36-41, 56-61)

A sender handle is identified by the channel it feeds; the world maps
channel identifiers to channel states.  `clone_box` copies the sender
(`self.sender.clone()`), and `appender` hands out a fresh logic holding a
clone of the mailbox's sender. -/

structure CrossbeamChannelMailboxAppenderLogic where
  sender : Nat
deriving Repr, DecidableEq

structure CrossbeamChannelMailboxLogic where
  sender : Nat
  receiver : Nat
deriving Repr, DecidableEq

/-- The heap of live channels, indexed by channel identifier. -/
def World (M : Type) : Type := Nat → Channel M

/-- Sending through a sender handle updates exactly the channel it feeds. -/
def World.sendVia (w : World M) (a : CrossbeamChannelMailboxAppenderLogic)
    (m : M) : World M :=
  fun i => if i = a.sender then append (w i) m else w i

/-- `CrossbeamChannelMailboxLogic::new`: a fresh channel at identifier `k`. -/
def mailboxNew (k : Nat) : CrossbeamChannelMailboxLogic :=
  { sender := k, receiver := k }

/-- `CrossbeamChannelMailboxLogic::appender`: a logic holding a clone of the
mailbox's sender (channel.rs:64-70). -/
def CrossbeamChannelMailboxLogic.appender (mb : CrossbeamChannelMailboxLogic) :
    CrossbeamChannelMailboxAppenderLogic :=
  { sender := mb.sender }

/-- `CrossbeamChannelMailboxAppenderLogic::clone_box`: a new logic holding a
clone of the same sender (channel.rs:56-61). -/
def CrossbeamChannelMailboxAppenderLogic.clone_box
    (a : CrossbeamChannelMailboxAppenderLogic) :
    CrossbeamChannelMailboxAppenderLogic :=
  { sender := a.sender }

/-- Retrieving from a mailbox reads the channel at its receiver handle. -/
def World.retrieveFrom (w : World M) (mb : CrossbeamChannelMailboxLogic) :
    Option M × World M :=
  let (r, c) := retrieve (w mb.receiver)
  (r, fun i => if i = mb.receiver then c else w i)

/-! ## Iterator source (src/stream/source/iterator.rs)

The stream core's event/action vocabulary.  The defining module
(`stream/mod.rs`) is not part of the provided sources. -/

/-- Modelled from the spec: the stage event vocabulary `LogicEvent`
(`{Pulled, Pushed(A), Started, Stopped, Cancelled, Forwarded(Ctl)}`), whose
defining module `stream/mod.rs` is missing from the sources. -/
inductive LogicEvent (A Ctl : Type) where
  | Pulled
  | Pushed (element : A)
  | Started
  | Stopped
  | Cancelled
  | Forwarded (c : Ctl)
deriving Repr, DecidableEq

/-- Modelled from the spec: the stage action vocabulary `Action`
(`{Pull, Push(B), Complete(Option<Error>), Cancel, Forward(Ctl), None}`),
whose defining module `stream/mod.rs` is missing from the sources.  Errors
are abstracted to `Nat` tags. -/
inductive Action (B Ctl : Type) where
  | Pull
  | Push (element : B)
  | Complete (error : Option Nat)
  | Cancel
  | Forward (c : Ctl)
  | None
deriving Repr, DecidableEq

/-- `Iterator::receive` (iterator.rs:31-56): the iterator is embedded as the
list of its remaining elements; the result pairs the new state with the
actions told to the stream context (at most one per event). -/
def iteratorReceive (xs : List A) :
    LogicEvent Unit Unit → List A × List (Action A Unit)
  | LogicEvent.Pulled =>
      match xs with
      | x :: rest => (rest, [Action.Push x])
      | [] => ([], [Action.Complete none])
  | LogicEvent.Cancelled => (xs, [Action.Complete none])
  | LogicEvent.Pushed _ => (xs, [])
  | LogicEvent.Stopped => (xs, [])
  | LogicEvent.Started => (xs, [])
  | LogicEvent.Forwarded _ => (xs, [])

/-- Feed `n` consecutive `Pulled` events to the iterator stage, collecting
every action it emits. -/
def runPulls (xs : List A) : Nat → List (Action A Unit)
  | 0 => []
  | n + 1 =>
      let (xs', acts) := iteratorReceive xs LogicEvent.Pulled
      acts ++ runPulls xs' n

/-! ## Actor system control loop (src/actor/system.rs:213-317) -/

/-- The control-channel message type `ActorSystemMsg` (system.rs:177-181). -/
inductive ActorSystemMsg where
  | Drain
  | Stop
  | Done
deriving Repr, DecidableEq

/-- Watcher requests issued by `join`; the boxed done-callback is embedded
as the control message it sends back on the control channel. -/
inductive WatcherRequest where
  | DrainSystem (onDone : ActorSystemMsg)
  | StopSystem (onDone : ActorSystemMsg)
deriving Repr, DecidableEq

/-- Side effects of one `join` loop iteration. -/
inductive JoinEffect where
  | tellWatcher (req : WatcherRequest)
  | tellTimerStop
deriving Repr, DecidableEq

/-- What `recv_timeout` on the control channel can yield. -/
inductive RecvResult where
  | timeout
  | disconnected
  | msg (m : ActorSystemMsg)
deriving Repr, DecidableEq

/-- One iteration of `ActiveActorSystem::join` (system.rs:248-305): the
effects performed and whether the loop continues (`true`) or breaks. -/
def joinStep : RecvResult → List JoinEffect × Bool
  | RecvResult.timeout => ([], true)
  | RecvResult.disconnected => ([], false)
  | RecvResult.msg ActorSystemMsg.Drain =>
      ([JoinEffect.tellWatcher (WatcherRequest.DrainSystem ActorSystemMsg.Done)], true)
  | RecvResult.msg ActorSystemMsg.Stop =>
      ([JoinEffect.tellWatcher (WatcherRequest.StopSystem ActorSystemMsg.Done)], true)
  | RecvResult.msg ActorSystemMsg.Done =>
      ([JoinEffect.tellTimerStop], false)

/-! ## Actor id allocation (src/actor/system.rs) -/

/-- `ActorSystemContext::spawn_actor` id allocation (system.rs:123):
`next_id.fetch_add(1)` returns the previous value. -/
def spawnAllocId (nextId : Nat) : Nat × Nat :=
  (nextId, nextId + 1)

/-- Outcome of `ActorSystem::start` (system.rs:339-403) restricted to id
allocation: the system context is created with initial id `100`
(system.rs:358) and spawns the timer then the watcher from it; the user
context is created with initial id `1` (system.rs:389). -/
structure StartIds where
  timerId : Nat
  watcherId : Nat
  userNextId : Nat
deriving Repr, DecidableEq

def actorSystemStart : StartIds :=
  let sysNext0 := 100
  let (timerId, sysNext1) := spawnAllocId sysNext0
  let (watcherId, _) := spawnAllocId sysNext1
  { timerId := timerId, watcherId := watcherId, userNextId := 1 }

/-- Ids of the first `n` user actors spawned through the user context
(`ActiveActorSystem::spawn`, system.rs:319-331). -/
def userSpawnIds (n : Nat) : List Nat :=
  (List.range n).map (fun i => actorSystemStart.userNextId + i)

/-! ## Detached boundary actor (src/stream/flow/detached.rs)

`DetachedActor` owns a `VecDeque` buffer of capacity `BUFFER_SIZE`,
optionally parked producer/consumer handles, accumulated downstream demand,
and `cancelled`/`completed`/`failed` flags.  The boxed producer/consumer
handles are opaque; the embedding records only their presence, and every
call made on a handle (`request`, `cancel`, `started`, `produced`,
`completed`, `failed`) or self-tell becomes an explicit effect. -/

/-- detached.rs:9 (`const BUFFER_SIZE: usize = 2`). -/
def BUFFER_SIZE : Nat := 2

/-- `DetachedActorMsg` (detached.rs:29-37); the boxed handles carried by
`Started`, `Produced`, `Requested`, `Cancelled` and `Attached` are elided
(the state tracks whether one is parked). -/
inductive DetachedActorMsg (A : Type) where
  | Started
  | Produced (element : A)
  | Completed
  | Failed (error : Nat)
  | Requested (demand : Nat)
  | Cancelled
  | Attached
deriving Repr, DecidableEq

/-- The fields of `DetachedActor` (detached.rs:39-48); `producer` and
`consumer` record whether the corresponding `Option<Box<...>>` is `Some`. -/
structure DetachedActor (A : Type) where
  buffer : List A
  producer : Bool
  consumer : Bool
  demand : Nat
  cancelled : Bool
  completed : Bool
  failed : Option Nat
deriving Repr, DecidableEq

/-- `DetachedActor::new` (detached.rs:50-63). -/
def DetachedActor.new (A : Type) : DetachedActor A :=
  { buffer := [], producer := false, consumer := false, demand := 0,
    cancelled := false, completed := false, failed := none }

/-- The observable calls `DetachedActor::receive` makes: calls on the
producer handle, calls on the consumer handle, and the self-tell of a
`Requested(consumer, 0)` message. -/
inductive DetachedEffect (A : Type) where
  | producerRequest (n : Nat)
  | producerCancel
  | consumerStarted
  | consumerProduced (element : A)
  | consumerCompleted
  | consumerFailed (error : Nat)
  | tellSelfRequested (demand : Nat)
deriving Repr, DecidableEq

/-- End of the `Produced` arm (detached.rs:107-111): if a consumer is
parked, take it and tell self `Requested(consumer, 0)`. -/
def consumerSelfTell (s : DetachedActor A) (effs : List (DetachedEffect A)) :
    DetachedActor A × List (DetachedEffect A) :=
  if s.consumer then
    ({ s with consumer := false }, effs ++ [DetachedEffect.tellSelfRequested 0])
  else (s, effs)

/-- `DetachedActor::receive` (detached.rs:69-205), returning the updated
state and the effects performed, in program order. -/
def DetachedActor.receive (s : DetachedActor A) :
    DetachedActorMsg A → DetachedActor A × List (DetachedEffect A)
  | DetachedActorMsg.Started =>
      if s.cancelled then (s, [DetachedEffect.producerCancel])
      else (s, [DetachedEffect.producerRequest 1])
  | DetachedActorMsg.Produced el =>
      let s1 := { s with buffer := s.buffer ++ [el] }
      if s1.cancelled then
        consumerSelfTell s1 [DetachedEffect.producerCancel]
      else if s1.buffer.length < BUFFER_SIZE then
        consumerSelfTell s1 [DetachedEffect.producerRequest 1]
      else
        consumerSelfTell { s1 with producer := true } []
  | DetachedActorMsg.Completed =>
      let s1 := { s with completed := true }
      if s1.consumer then
        ({ s1 with consumer := false }, [DetachedEffect.consumerCompleted])
      else (s1, [])
  | DetachedActorMsg.Failed e =>
      if s.consumer then
        ({ s with consumer := false }, [DetachedEffect.consumerFailed e])
      else ({ s with failed := some e }, [])
  | DetachedActorMsg.Requested d =>
      if s.completed then (s, [DetachedEffect.consumerCompleted])
      else
        match s.failed with
        | some e => ({ s with failed := none }, [DetachedEffect.consumerFailed e])
        | none =>
            if s.demand + d > 0 then
              match s.buffer with
              | elem :: rest =>
                  let s2 := { s with buffer := rest, demand := s.demand + d - 1 }
                  if rest.length < BUFFER_SIZE then
                    if s2.producer then
                      ({ s2 with producer := false },
                       [DetachedEffect.producerRequest 1,
                        DetachedEffect.consumerProduced elem])
                    else (s2, [DetachedEffect.consumerProduced elem])
                  else (s2, [DetachedEffect.consumerProduced elem])
              | [] => ({ s with demand := s.demand + d, consumer := true }, [])
            else ({ s with demand := s.demand + d, consumer := true }, [])
  | DetachedActorMsg.Cancelled =>
      if s.producer then
        ({ s with consumer := true, producer := false },
         [DetachedEffect.producerCancel])
      else ({ s with consumer := true, cancelled := true }, [])
  | DetachedActorMsg.Attached => (s, [DetachedEffect.consumerStarted])

/-! ### Environment for the buffer-bound invariant

The actor is driven by its mailbox.  `Produced` can only arrive while
upstream holds an unanswered request (`outstanding > 0`), and `Started`
(upstream attachment) is a one-time event; `outstanding` counts the
`request` calls emitted minus the elements produced. -/

def isProducedMsg : DetachedActorMsg A → Bool
  | DetachedActorMsg.Produced _ => true
  | _ => false

def isStartedMsg : DetachedActorMsg A → Bool
  | DetachedActorMsg.Started => true
  | _ => false

/-- Total upstream demand contained in a list of effects. -/
def requestsIn : List (DetachedEffect A) → Nat
  | [] => 0
  | DetachedEffect.producerRequest n :: rest => n + requestsIn rest
  | _ :: rest => requestsIn rest

/-- The detached actor together with its upstream environment. -/
structure DetachedSys (A : Type) where
  actor : DetachedActor A
  outstanding : Nat
  startedSeen : Bool
deriving Repr, DecidableEq

def initDetachedSys (A : Type) : DetachedSys A :=
  { actor := DetachedActor.new A, outstanding := 0, startedSeen := false }

/-- A message is admissible in the given system state. -/
def validMsgB (s : DetachedSys A) (m : DetachedActorMsg A) : Bool :=
  (!(isProducedMsg m) || decide (0 < s.outstanding)) &&
  (!(isStartedMsg m) || !s.startedSeen)

/-- Process one message: run `receive` and account for upstream demand. -/
def stepSys (s : DetachedSys A) (m : DetachedActorMsg A) : DetachedSys A :=
  { actor := (s.actor.receive m).1,
    outstanding :=
      (s.outstanding - (if isProducedMsg m then 1 else 0)) +
        requestsIn (s.actor.receive m).2,
    startedSeen := s.startedSeen || isStartedMsg m }

/-- Every message of the trace is admissible in the state it meets. -/
def validTraceB (s : DetachedSys A) : List (DetachedActorMsg A) → Bool
  | [] => true
  | m :: ms => validMsgB s m && validTraceB (stepSys s m) ms

/-- Run a trace, collecting the effects of every step in order. -/
def runDetached (s : DetachedSys A) :
    List (DetachedActorMsg A) → DetachedSys A × List (DetachedEffect A)
  | [] => (s, [])
  | m :: ms =>
      ((runDetached (stepSys s m) ms).1,
       (s.actor.receive m).2 ++ (runDetached (stepSys s m) ms).2)

/-- The inductive invariant of the detached system: a parked producer means
no request is in flight, at most one request is ever in flight, in-flight
requests plus buffered elements never exceed `BUFFER_SIZE`, and before the
upstream attaches nothing has been requested or buffered. -/
def DetachedInv (s : DetachedSys A) : Prop :=
  (s.actor.producer = true → s.outstanding = 0) ∧
  s.outstanding ≤ 1 ∧
  s.outstanding + s.actor.buffer.length ≤ BUFFER_SIZE ∧
  (s.startedSeen = false →
    s.outstanding = 0 ∧ s.actor.producer = false ∧ s.actor.buffer = [])

/-- A sample cancelled-state detached actor: `[5]` buffered, no handles
parked, the `cancelled` flag already set. -/
def cancelSample : DetachedActor ℕ :=
  { buffer := [5], producer := false, consumer := false, demand := 0,
    cancelled := true, completed := false, failed := none }

/-! Mirror of `tests::simple_test` (channel.rs:84-98): a fresh mailbox at
channel 0, one appender and one clone of it. -/

def stWorld0 : World ℕ := fun _ => Channel.unbounded ℕ

def stMailbox : CrossbeamChannelMailboxLogic := mailboxNew 0

def stWorld2 : World ℕ :=
  World.sendVia (World.retrieveFrom stWorld0 stMailbox).2 stMailbox.appender 0

def stWorld3 : World ℕ :=
  World.sendVia stWorld2 stMailbox.appender.clone_box 1

def stR1 : Option ℕ × World ℕ := World.retrieveFrom stWorld3 stMailbox

def stR2 : Option ℕ × World ℕ := World.retrieveFrom stR1.2 stMailbox

def stR3 : Option ℕ × World ℕ := World.retrieveFrom stR2.2 stMailbox

/-! ## Supporting lemmas -/

theorem appendAll_queue (c : Channel M) (ms : List M)
    (h : c.receiverAlive = true) :
    appendAll c ms = { queue := c.queue ++ ms, receiverAlive := true } := by
  induction ms generalizing c with
  | nil =>
      obtain ⟨q, r⟩ := c
      simp only [Channel.receiverAlive] at h
      subst h
      simp [appendAll]
  | cons m rest ih =>
      have hstep : append c m = { queue := c.queue ++ [m], receiverAlive := true } := by
        simp [append, Channel.send, h]
      simp only [appendAll, List.foldl_cons] at *
      rw [hstep, ih { queue := c.queue ++ [m], receiverAlive := true } rfl]
      simp

theorem drainAll_eq_queue (c : Channel M) : drainAll c = c.queue := by
  obtain ⟨q, r⟩ := c
  induction q with
  | nil => simp [drainAll]
  | cons m rest ih => simpa [drainAll] using ih

theorem detachedInv_init : DetachedInv (initDetachedSys A) := by
  refine ⟨?_, ?_, ?_, ?_⟩ <;> simp [initDetachedSys, DetachedActor.new, BUFFER_SIZE]

theorem requestsIn_append (xs ys : List (DetachedEffect A)) :
    requestsIn (xs ++ ys) = requestsIn xs + requestsIn ys := by
  induction xs with
  | nil => simp [requestsIn]
  | cons x rest ih =>
      cases x <;> simp [requestsIn, ih] <;> omega

theorem consumerSelfTell_actor (s : DetachedActor A)
    (effs : List (DetachedEffect A)) :
    (consumerSelfTell s effs).1 =
      if s.consumer then { s with consumer := false } else s := by
  unfold consumerSelfTell
  split <;> simp_all

theorem consumerSelfTell_requests (s : DetachedActor A)
    (effs : List (DetachedEffect A)) :
    requestsIn (consumerSelfTell s effs).2 = requestsIn effs := by
  unfold consumerSelfTell
  split <;> simp [requestsIn_append, requestsIn]

theorem detachedInv_step {s : DetachedSys A} {m : DetachedActorMsg A}
    (hI : DetachedInv s) (hv : validMsgB s m = true) :
    DetachedInv (stepSys s m) := by
  obtain ⟨h1, h2, h3, h4⟩ := hI
  cases m with
  | Started =>
      have hns : s.startedSeen = false := by
        simp [validMsgB, isStartedMsg, isProducedMsg] at hv
        exact hv
      obtain ⟨ho, hp, hb⟩ := h4 hns
      by_cases hc : s.actor.cancelled = true
      · refine ⟨?_, ?_, ?_, ?_⟩ <;>
          simp [stepSys, DetachedActor.receive, hc, requestsIn, isProducedMsg,
            isStartedMsg, hp, ho, hb, BUFFER_SIZE]
      · refine ⟨?_, ?_, ?_, ?_⟩ <;>
          simp [stepSys, DetachedActor.receive, hc, requestsIn, isProducedMsg,
            isStartedMsg, hp, ho, hb, BUFFER_SIZE]
  | Produced el =>
      have hout : 0 < s.outstanding := by
        simp [validMsgB, isStartedMsg, isProducedMsg] at hv
        exact hv
      have hout1 : s.outstanding = 1 := by omega
      have hp : s.actor.producer = false := by
        cases hpv : s.actor.producer with
        | false => rfl
        | true => exact absurd (h1 hpv) (by omega)
      have hss : s.startedSeen = true := by
        cases hssv : s.startedSeen with
        | false => exact absurd (h4 hssv).1 (by omega)
        | true => rfl
      have hlen : s.actor.buffer.length ≤ 1 := by
        simp [BUFFER_SIZE] at h3; omega
      by_cases hc : s.actor.cancelled = true <;>
        [skip; by_cases hroom : s.actor.buffer.length + 1 < 2] <;>
        · refine ⟨?_, ?_, ?_, ?_⟩ <;>
            simp [stepSys, DetachedActor.receive, consumerSelfTell_actor,
              consumerSelfTell_requests, hc, requestsIn, isProducedMsg,
              isStartedMsg, hp, hout1, hss, BUFFER_SIZE, *] <;>
            split <;>
            simp_all <;>
            omega
  | Completed =>
      by_cases hcons : s.actor.consumer = true <;>
        · refine ⟨fun hpp => ?_, ?_, ?_, fun hss => ?_⟩ <;>
            simp_all [stepSys, DetachedActor.receive, hcons, requestsIn,
              isProducedMsg, isStartedMsg, BUFFER_SIZE] <;>
            omega
  | Failed e =>
      by_cases hcons : s.actor.consumer = true <;>
        · refine ⟨fun hpp => ?_, ?_, ?_, fun hss => ?_⟩ <;>
            simp_all [stepSys, DetachedActor.receive, hcons, requestsIn,
              isProducedMsg, isStartedMsg, BUFFER_SIZE] <;>
            omega
  | Requested d =>
      by_cases hcomp : s.actor.completed = true
      · refine ⟨fun hpp => ?_, ?_, ?_, fun hss => ?_⟩ <;>
          simp_all [stepSys, DetachedActor.receive, hcomp, requestsIn,
            isProducedMsg, isStartedMsg, BUFFER_SIZE] <;>
          omega
      · cases hf : s.actor.failed with
        | some e =>
            refine ⟨fun hpp => ?_, ?_, ?_, fun hss => ?_⟩ <;>
              simp_all [stepSys, DetachedActor.receive, hcomp, hf, requestsIn,
                isProducedMsg, isStartedMsg, BUFFER_SIZE] <;>
              omega
        | none =>
            by_cases hdem : s.actor.demand + d > 0
            · cases hb : s.actor.buffer with
              | nil =>
                  refine ⟨fun hpp => ?_, ?_, ?_, fun hss => ?_⟩ <;>
                    simp_all [stepSys, DetachedActor.receive, hcomp, hf, hdem,
                      hb, requestsIn, isProducedMsg, isStartedMsg, BUFFER_SIZE] <;>
                    omega
              | cons elem rest =>
                  have hss : s.startedSeen = true := by
                    cases hssv : s.startedSeen with
                    | false =>
                        have := (h4 hssv).2.2
                        rw [hb] at this
                        exact absurd this (by simp)
                    | true => rfl
                  have hlenr : s.actor.buffer.length = rest.length + 1 := by
                    simp [hb]
                  by_cases hrl : rest.length < 2 <;>
                    by_cases hpr : s.actor.producer = true <;>
                    · have hpo : s.actor.producer = true → s.outstanding = 0 := h1
                      refine ⟨fun hpp => ?_, ?_, ?_, fun hssf => ?_⟩ <;>
                        simp_all [stepSys, DetachedActor.receive, hcomp, hf,
                          hdem, hb, hrl, hpr, requestsIn, isProducedMsg,
                          isStartedMsg, BUFFER_SIZE] <;>
                        omega
            · refine ⟨fun hpp => ?_, ?_, ?_, fun hss => ?_⟩ <;>
                simp_all [stepSys, DetachedActor.receive, hcomp, hf, hdem,
                  requestsIn, isProducedMsg, isStartedMsg, BUFFER_SIZE] <;>
                omega
  | Cancelled =>
      by_cases hpr : s.actor.producer = true <;>
        · refine ⟨fun hpp => ?_, ?_, ?_, fun hss => ?_⟩ <;>
            simp_all [stepSys, DetachedActor.receive, hpr, requestsIn,
              isProducedMsg, isStartedMsg, BUFFER_SIZE] <;>
            omega
  | Attached =>
      refine ⟨fun hpp => ?_, ?_, ?_, fun hss => ?_⟩ <;>
        simp_all [stepSys, DetachedActor.receive, requestsIn, isProducedMsg,
          isStartedMsg, BUFFER_SIZE] <;>
        omega

theorem detachedInv_run {s : DetachedSys A} (hI : DetachedInv s)
    (ms : List (DetachedActorMsg A)) (hv : validTraceB s ms = true) :
    DetachedInv (runDetached s ms).1 := by
  induction ms generalizing s with
  | nil => exact hI
  | cons m rest ih =>
      simp only [validTraceB, Bool.and_eq_true] at hv
      have hstep : (runDetached s (m :: rest)).1 =
          (runDetached (stepSys s m) rest).1 := rfl
      rw [hstep]
      exact ih (detachedInv_step hI hv.1) hv.2

/-! ## Claim theorems -/

/-- Claim C1: upstream completion with a non-empty buffer must not be
forwarded downstream before the buffered elements are delivered.  The code
violates this: after the admissible trace `Attached, Started, Produced 0,
Produced 1, Completed, Requested 1` the actor answers the downstream
request with `consumer.completed()` while `[0, 1]` is still buffered and no
`consumer.produced` call was ever made, so both elements are lost. -/
theorem detached_completion_forwarded_before_drain :
    validTraceB (initDetachedSys ℕ)
      [DetachedActorMsg.Attached, DetachedActorMsg.Started,
       DetachedActorMsg.Produced 0, DetachedActorMsg.Produced 1,
       DetachedActorMsg.Completed, DetachedActorMsg.Requested 1] = true ∧
    (runDetached (initDetachedSys ℕ)
      [DetachedActorMsg.Attached, DetachedActorMsg.Started,
       DetachedActorMsg.Produced 0, DetachedActorMsg.Produced 1,
       DetachedActorMsg.Completed, DetachedActorMsg.Requested 1]).2 =
      [DetachedEffect.consumerStarted, DetachedEffect.producerRequest 1,
       DetachedEffect.producerRequest 1, DetachedEffect.consumerCompleted] ∧
    (runDetached (initDetachedSys ℕ)
      [DetachedActorMsg.Attached, DetachedActorMsg.Started,
       DetachedActorMsg.Produced 0, DetachedActorMsg.Produced 1,
       DetachedActorMsg.Completed, DetachedActorMsg.Requested 1]).1.actor.buffer
      = [0, 1] := by
  refine ⟨by decide, by decide, by decide⟩

/-- Claim C2: over every admissible event trace the detached actor's buffer
never holds more than `BUFFER_SIZE = 2` elements, and any admissible
`Produced` event finds the buffer strictly below capacity. -/
theorem detached_buffer_bound (ms : List (DetachedActorMsg ℕ))
    (hv : validTraceB (initDetachedSys ℕ) ms = true) :
    (runDetached (initDetachedSys ℕ) ms).1.actor.buffer.length ≤ BUFFER_SIZE ∧
    ∀ a : ℕ,
      validMsgB (runDetached (initDetachedSys ℕ) ms).1
        (DetachedActorMsg.Produced a) = true →
      (runDetached (initDetachedSys ℕ) ms).1.actor.buffer.length <
        BUFFER_SIZE := by
  obtain ⟨h1, h2, h3, h4⟩ := detachedInv_run (detachedInv_init) ms hv
  refine ⟨by omega, ?_⟩
  intro a hva
  have hout : 0 < (runDetached (initDetachedSys ℕ) ms).1.outstanding := by
    simp [validMsgB, isProducedMsg, isStartedMsg] at hva
    exact hva
  simp [BUFFER_SIZE] at h3 ⊢
  omega

/-- Witness for C2 at the admissible trace `Attached, Started, Produced 7`. -/
theorem detached_buffer_bound_witness :
    validTraceB (initDetachedSys ℕ)
      [DetachedActorMsg.Attached, DetachedActorMsg.Started,
       DetachedActorMsg.Produced 7] = true ∧
    (runDetached (initDetachedSys ℕ)
      [DetachedActorMsg.Attached, DetachedActorMsg.Started,
       DetachedActorMsg.Produced 7]).1.actor.buffer.length ≤ BUFFER_SIZE :=
  ⟨by decide,
   (detached_buffer_bound
     [DetachedActorMsg.Attached, DetachedActorMsg.Started,
      DetachedActorMsg.Produced 7] (by decide)).1⟩

/-- Claim C3, counterexample: on its first `Started` the fresh detached
actor issues `producer.request(1)`, not a request for
`BUFFER_SIZE = 2` elements as the claim states. -/
theorem detached_started_requests_one_not_bufferSize :
    ((DetachedActor.new ℕ).receive DetachedActorMsg.Started).2 =
      [DetachedEffect.producerRequest 1] ∧
    BUFFER_SIZE = 2 ∧
    ((DetachedActor.new ℕ).receive DetachedActorMsg.Started).2 ≠
      [DetachedEffect.producerRequest BUFFER_SIZE] := by
  refine ⟨by decide, by decide, by decide⟩

/-- Claim C3, amended: on a `Started` event a not-yet-cancelled detached
actor requests exactly one element from upstream and leaves its state
unchanged (the buffer is subsequently kept full by the one-more-request
rule of the `Produced` arm). -/
theorem detached_started_requests_exactly_one (s : DetachedActor ℕ)
    (h : s.cancelled = false) :
    s.receive DetachedActorMsg.Started =
      (s, [DetachedEffect.producerRequest 1]) := by
  simp [DetachedActor.receive, h]

/-- Witness for the amended C3 at the freshly constructed actor. -/
theorem detached_started_requests_exactly_one_witness :
    (DetachedActor.new ℕ).cancelled = false ∧
    (DetachedActor.new ℕ).receive DetachedActorMsg.Started =
      (DetachedActor.new ℕ, [DetachedEffect.producerRequest 1]) :=
  ⟨rfl, detached_started_requests_exactly_one (DetachedActor.new ℕ) rfl⟩

/-- Claim C4, counterexample: a downstream `Cancelled` does not drop the
buffered elements.  After the admissible trace `Attached, Started,
Produced 5, Cancelled` the buffer still holds `[5]`. -/
theorem detached_cancel_keeps_buffer :
    validTraceB (initDetachedSys ℕ)
      [DetachedActorMsg.Attached, DetachedActorMsg.Started,
       DetachedActorMsg.Produced 5, DetachedActorMsg.Cancelled] = true ∧
    (runDetached (initDetachedSys ℕ)
      [DetachedActorMsg.Attached, DetachedActorMsg.Started,
       DetachedActorMsg.Produced 5, DetachedActorMsg.Cancelled]).1.actor.buffer
      = [5] ∧
    ([5] : List ℕ) ≠ [] := by
  refine ⟨by decide, by decide, by decide⟩

/-- Claim C4, amended: on downstream `Cancelled` the actor parks the
consumer without notifying it; if a producer handle is held it cancels
upstream immediately, otherwise it sets the `cancelled` flag and the next
upstream interaction (`Started` or `Produced`) triggers the upstream
cancel; the buffered elements are retained, not dropped. -/
theorem detached_cancelled_behavior (s : DetachedActor ℕ) :
    (s.producer = true →
      s.receive DetachedActorMsg.Cancelled =
        ({ s with consumer := true, producer := false },
         [DetachedEffect.producerCancel])) ∧
    (s.producer = false →
      s.receive DetachedActorMsg.Cancelled =
        ({ s with consumer := true, cancelled := true }, [])) ∧
    (s.receive DetachedActorMsg.Cancelled).1.buffer = s.buffer ∧
    (s.cancelled = true →
      (s.receive DetachedActorMsg.Started).2 = [DetachedEffect.producerCancel] ∧
      ∀ el : ℕ,
        DetachedEffect.producerCancel ∈ (s.receive (DetachedActorMsg.Produced el)).2) := by
  refine ⟨?_, ?_, ?_, ?_⟩
  · intro hp
    simp [DetachedActor.receive, hp]
  · intro hp
    simp [DetachedActor.receive, hp]
  · by_cases hp : s.producer = true <;> simp [DetachedActor.receive, hp]
  · intro hc
    refine ⟨by simp [DetachedActor.receive, hc], ?_⟩
    intro el
    simp [DetachedActor.receive, hc, consumerSelfTell]
    split <;> simp

/-- Witness for the amended C4 at `cancelSample` (no producer parked,
already-cancelled flag set, `[5]` buffered). -/
theorem detached_cancelled_behavior_witness :
    cancelSample.producer = false ∧
    cancelSample.cancelled = true ∧
    cancelSample.receive DetachedActorMsg.Cancelled =
      ({ cancelSample with consumer := true, cancelled := true }, []) ∧
    (cancelSample.receive DetachedActorMsg.Started).2 =
      [DetachedEffect.producerCancel] :=
  ⟨rfl, rfl, (detached_cancelled_behavior cancelSample).2.1 rfl,
   ((detached_cancelled_behavior cancelSample).2.2.2 rfl).1⟩

/-- Claim C5: on `ActorSystem::start` the system context allocates ids from
100, so the timer gets id 100 and the watcher id 101, while the user
context allocates ids from 1: the first user actors receive ids 1, 2, 3 —
all below 100 — and the hundredth user spawn would collide with the
timer's id.  This contradicts the claim (and the source's own comment)
that ids below 100 are reserved for system actors and user ids start at
100. -/
theorem actor_id_allocation_swapped :
    actorSystemStart =
      { timerId := 100, watcherId := 101, userNextId := 1 } ∧
    userSpawnIds 3 = [1, 2, 3] ∧
    (∀ i ∈ userSpawnIds 3, i < 100) ∧
    actorSystemStart.timerId ∈ userSpawnIds 100 := by
  refine ⟨by decide, by decide, by decide, by decide⟩

/-- Claim C6: messages appended through one appender are retrieved in
exactly the append order after the messages already queued (FIFO per
appender), and `retrieve` returns `none` precisely when the queue is
empty at the time of the call. -/
theorem mailbox_fifo_per_appender (c : Channel ℕ) (xs : List ℕ)
    (h : c.receiverAlive = true) :
    drainAll (appendAll c xs) = c.queue ++ xs ∧
    ∀ d : Channel ℕ, ((retrieve d).1 = none ↔ d.queue = []) := by
  constructor
  · rw [appendAll_queue c xs h, drainAll_eq_queue]
  · intro d
    obtain ⟨q, r⟩ := d
    cases q <;> simp [retrieve, Channel.tryRecv]

/-- Witness for C6: a live channel holding `[9]`, appending `[1, 2]`. -/
theorem mailbox_fifo_per_appender_witness :
    (Channel.mk [9] true : Channel ℕ).receiverAlive = true ∧
    drainAll (appendAll (Channel.mk [9] true : Channel ℕ) [1, 2]) =
      [9] ++ [1, 2] :=
  ⟨rfl, (mailbox_fifo_per_appender (Channel.mk [9] true) [1, 2] rfl).1⟩

/-- Claim C7: appending to a mailbox whose receiving end has been dropped
returns normally and has no observable effect: the channel is unchanged
and the message silently discarded. -/
theorem append_to_dropped_receiver_noop (c : Channel ℕ) (m : ℕ)
    (h : c.receiverAlive = false) :
    append c m = c := by
  simp [append, Channel.send, h]

/-- Witness for C7 at the empty dropped-receiver channel. -/
theorem append_to_dropped_receiver_noop_witness :
    (Channel.mk [] false : Channel ℕ).receiverAlive = false ∧
    append (Channel.mk [] false : Channel ℕ) 0 = Channel.mk [] false :=
  ⟨rfl, append_to_dropped_receiver_noop (Channel.mk [] false) 0 rfl⟩

/-- Claim C8: the iterator source answers `Pulled` with `Push` of the next
element while elements remain and with `Complete(None)` once exhausted,
answers `Cancelled` with `Complete(None)`, and driving `[1,2,3,4,5]` with
five pulls emits exactly `Push 1 .. Push 5`, the sixth pull completing. -/
theorem iterator_source_behavior (x : ℕ) (xs : List ℕ) :
    iteratorReceive (x :: xs) LogicEvent.Pulled = (xs, [Action.Push x]) ∧
    iteratorReceive ([] : List ℕ) LogicEvent.Pulled =
      ([], [Action.Complete none]) ∧
    (∀ ys : List ℕ,
      iteratorReceive ys LogicEvent.Cancelled = (ys, [Action.Complete none])) ∧
    runPulls [1, 2, 3, 4, 5] 5 =
      [Action.Push 1, Action.Push 2, Action.Push 3, Action.Push 4,
       Action.Push 5] ∧
    runPulls [1, 2, 3, 4, 5] 6 =
      [Action.Push 1, Action.Push 2, Action.Push 3, Action.Push 4,
       Action.Push 5, Action.Complete none] := by
  refine ⟨rfl, rfl, fun ys => rfl, by decide, by decide⟩

/-- Claim C9: in the `join` control loop, `Drain` (resp. `Stop`) asks the
watcher to run `DrainSystem` (resp. `StopSystem`) with a callback that
sends `Done` back on the control channel and keeps looping, `Done` stops
the timer and exits, and the loop exits only on `Done` or disconnection. -/
theorem join_control_loop :
    joinStep (RecvResult.msg ActorSystemMsg.Drain) =
      ([JoinEffect.tellWatcher (WatcherRequest.DrainSystem ActorSystemMsg.Done)],
       true) ∧
    joinStep (RecvResult.msg ActorSystemMsg.Stop) =
      ([JoinEffect.tellWatcher (WatcherRequest.StopSystem ActorSystemMsg.Done)],
       true) ∧
    joinStep (RecvResult.msg ActorSystemMsg.Done) =
      ([JoinEffect.tellTimerStop], false) ∧
    ∀ r : RecvResult,
      ((joinStep r).2 = false ↔
        (r = RecvResult.disconnected ∨ r = RecvResult.msg ActorSystemMsg.Done)) := by
  refine ⟨rfl, rfl, rfl, ?_⟩
  intro r
  cases r with
  | timeout => simp [joinStep]
  | disconnected => simp [joinStep]
  | msg m => cases m <;> simp [joinStep]

/-- Claim C10: a clone of an appender is the same sender handle, so
appending through the clone updates the same underlying channel and is
observationally interchangeable with the original appender; in particular
the `simple_test` scenario retrieves `none`, then `some 0` (appended via
the original), `some 1` (appended via the clone), `none`. -/
theorem appender_clone_interchangeable (k : Nat) (w : World ℕ) (x : ℕ) :
    ((mailboxNew k).appender).clone_box = (mailboxNew k).appender ∧
    World.sendVia w (((mailboxNew k).appender).clone_box) x =
      World.sendVia w ((mailboxNew k).appender) x ∧
    World.retrieveFrom
        (World.sendVia w (((mailboxNew k).appender).clone_box) x)
        (mailboxNew k) =
      World.retrieveFrom (World.sendVia w ((mailboxNew k).appender) x)
        (mailboxNew k) ∧
    (World.retrieveFrom stWorld0 stMailbox).1 = none ∧
    stR1.1 = some 0 ∧
    stR2.1 = some 1 ∧
    stR3.1 = none := by
  refine ⟨rfl, rfl, rfl, rfl, rfl, rfl, rfl⟩

end Pantomime
